import Mathlib

/-!
Verification development for the griffonner documentation generator.

Shallow embedding of the core modules:
  * `frontmatter.py` — frontmatter extraction and pydantic validation,
  * `plugins/manager.py` — the plugin registry and processor pipeline,
  * `core.py` — file scanning, classification, and generation orchestration,
  * `watcher.py` — the watch-mode event handler.

External collaborators (the YAML parser, the Griffe loader, the Jinja
renderer, `shutil` copying and `fnmatch` glob matching) are modelled as
explicit function parameters, mirroring the code's use of them as opaque
libraries.  Pure functions are translated directly from the Python source.
-/

namespace Griffonner

/-- Whitespace in the sense of Python's ASCII `\s` class (space, tab,
newline, carriage return, vertical tab, form feed). -/
def pyWs (c : Char) : Bool :=
  c == ' ' || c == '\t' || c == '\n' || c == '\r' || c == '\x0b' || c == '\x0c'

/-- Model of Python's `str.strip()`: drop whitespace from both ends. -/
def pyStrip (s : String) : String :=
  (((s.data.dropWhile pyWs).reverse.dropWhile pyWs).reverse).asString

/-- Model of Python's `str.startswith(p)`. -/
def pyStartsWith (s p : String) : Bool :=
  p.data.isPrefixOf s.data

/-- Model of Python's `str.endswith(p)`. -/
def pyEndsWith (s p : String) : Bool :=
  p.data.isSuffixOf s.data

/-- Abstract YAML value, the possible results of `yaml.safe_load`. -/
inductive Yaml where
  | null : Yaml
  | bool (b : Bool) : Yaml
  | str (s : String) : Yaml
  | int (n : Int) : Yaml
  | list (xs : List Yaml) : Yaml
  | map (entries : List (String × Yaml)) : Yaml

/-- Lookup of a key in a YAML mapping (keys of a parsed mapping are unique,
first match is taken). -/
def yamlLookup (m : List (String × Yaml)) (k : String) : Option Yaml :=
  match m with
  | [] => none
  | (k1, v) :: rest => if k1 = k then some v else yamlLookup rest k

/-- One output configuration from the frontmatter (`OutputItem` in
`frontmatter.py`): a filename and a Griffe target. -/
structure OutputItem where
  filename : String
  griffe_target : String
deriving DecidableEq

/-- Processor selection from the frontmatter (`ProcessorConfig` in
`frontmatter.py`). -/
structure ProcessorConfig where
  enabled : List String
  disabled : List String
  config : List (String × Yaml)

/-- Parsed frontmatter configuration (`FrontmatterConfig` in
`frontmatter.py`). -/
structure FrontmatterConfig where
  template : String
  output : List OutputItem
  griffe : List (String × Yaml)
  custom_vars : List (String × Yaml)
  processors : Option ProcessorConfig

/-- The `validate_template` field validator of `FrontmatterConfig`: the
template path must end with `.jinja2` or `.j2`. -/
def validTemplate (s : String) : Bool :=
  pyEndsWith s ".jinja2" || pyEndsWith s ".j2"

/-- Pydantic validation of one `OutputItem`: a mapping providing string
fields `filename` and `griffe_target`. -/
def OutputItem.validate (y : Yaml) : Except String OutputItem :=
  match y with
  | .map m =>
    match yamlLookup m "filename", yamlLookup m "griffe_target" with
    | some (.str f), some (.str g) => .ok ⟨f, g⟩
    | _, _ => .error "output item: missing or non-string filename or griffe_target"
  | _ => .error "output item: input should be a mapping"

/-- Pydantic validation of the `processors` block: optional string lists
`enabled` and `disabled` (default empty) and an optional `config` map. -/
def ProcessorConfig.validate (y : Yaml) : Except String ProcessorConfig :=
  match y with
  | .map m =>
    let strList : Option Yaml → Except String (List String) := fun v =>
      match v with
      | none => .ok []
      | some (.list xs) =>
        xs.mapM (fun x => match x with
          | .str s => Except.ok s
          | _ => Except.error "processors: list entries must be strings")
      | some _ => .error "processors: enabled and disabled must be lists"
    match strList (yamlLookup m "enabled"), strList (yamlLookup m "disabled") with
    | .ok en, .ok dis =>
      match yamlLookup m "config" with
      | none => .ok ⟨en, dis, []⟩
      | some (.map cfg) => .ok ⟨en, dis, cfg⟩
      | some _ => .error "processors: config must be a mapping"
    | .error e, _ => .error e
    | _, .error e => .error e
  | _ => .error "processors: input should be a mapping"

/-- Pydantic validation of `FrontmatterConfig.model_validate`: `template`
is a required string with a recognised extension, `output` a required list
of output items; `griffe`, `custom_vars` and `processors` are optional. -/
def FrontmatterConfig.modelValidate (m : List (String × Yaml)) :
    Except String FrontmatterConfig := do
  let template ←
    match yamlLookup m "template" with
    | none => Except.error "template: field required"
    | some (.str s) =>
      if validTemplate s then Except.ok s
      else Except.error "Template must end with .jinja2 or .j2"
    | some _ => Except.error "template: input should coerce to a string"
  let output ←
    match yamlLookup m "output" with
    | none => Except.error "output: field required"
    | some (.list xs) => xs.mapM OutputItem.validate
    | some _ => Except.error "output: input should be a list"
  let griffe ←
    match yamlLookup m "griffe" with
    | none => Except.ok ([] : List (String × Yaml))
    | some (.map g) => Except.ok g
    | some _ => Except.error "griffe: input should be a mapping"
  let customVars ←
    match yamlLookup m "custom_vars" with
    | none => Except.ok ([] : List (String × Yaml))
    | some (.map g) => Except.ok g
    | some _ => Except.error "custom_vars: input should be a mapping"
  let procs ←
    match yamlLookup m "processors" with
    | none => Except.ok (none : Option ProcessorConfig)
    | some .null => Except.ok none
    | some y => (ProcessorConfig.validate y).map some
  Except.ok ⟨template, output, griffe, customVars, procs⟩

/-- Ascending indices of the newline characters inside the maximal leading
whitespace run of a character list.  These are exactly the positions the
greedy `\s*\n` at the start of the frontmatter regex can consume through. -/
def nlCandidates : List Char → Nat → List Nat
  | [], _ => []
  | c :: cs, i =>
    if pyWs c then
      (if c == '\n' then [i] else []) ++ nlCandidates cs (i + 1)
    else []

/-- First successful application of `f`, in list order. -/
def firstSome {α β : Type} (f : α → Option β) : List α → Option β
  | [] => none
  | a :: rest =>
    match f a with
    | some b => some b
    | none => firstSome f rest

/-- Earliest occurrence of the closing delimiter `"\n---"`: returns the
characters before it (the lazy group `(.*?)`) and the characters after the
three dashes.  Mirrors the lazy matching of `(.*?)\n---` under `DOTALL`. -/
def findNlDashes : List Char → Option (List Char × List Char)
  | [] => none
  | c :: cs =>
    if c == '\n' && ['-', '-', '-'].isPrefixOf cs then
      some ([], cs.drop 3)
    else
      match findNlDashes cs with
      | some (g, r) => some (c :: g, r)
      | none => none

/-- Model of `re.match(r"^---\s*\n(.*?)\n---\s*\n?(.*)", content, re.DOTALL)`
from `parse_frontmatter_file`: on success returns the frontmatter YAML text
(group 1) and the body text (group 2).  The greedy `\s*\n` backtracks from
the longest whitespace run, so later newline candidates are tried first;
`(.*?)` is lazy, so the earliest closing `"\n---"` wins; the trailing
`\s*\n?(.*)` always succeeds and leaves group 2 the text after the maximal
whitespace run that follows the closing dashes. -/
def matchFrontmatter (content : String) : Option (String × String) :=
  let cs := content.data
  if ['-', '-', '-'].isPrefixOf cs then
    let rest := cs.drop 3
    firstSome (fun i =>
      match findNlDashes (rest.drop (i + 1)) with
      | some (g1, after2) =>
        some (g1.asString, ((after2.dropWhile pyWs).asString))
      | none => none)
      ((nlCandidates rest 0).reverse)
  else none

/-- A parsed source document (`ParsedFile` in `frontmatter.py`). -/
structure ParsedDoc where
  frontmatter : FrontmatterConfig
  content : String
  sourcePath : String

/-- Distinct failure categories of `parse_frontmatter_file`, in the order
the code distinguishes them. -/
inductive FmFailure where
  | emptyDocument : FmFailure
  | malformedBlock : FmFailure
  | missingFrontmatter : FmFailure
  | invalidYaml (msg : String) : FmFailure
  | notAMapping : FmFailure
  | invalidConfig (msg : String) : FmFailure

/-- Render a frontmatter failure to the error message recorded by callers
(`ValueError` text in the Python source, abridged to its discriminating
first line). -/
def fmFailureMessage : FmFailure → String
  | .emptyDocument => "No valid frontmatter found: the file is empty"
  | .malformedBlock => "No valid frontmatter found: the frontmatter format is invalid"
  | .missingFrontmatter => "No valid frontmatter found"
  | .invalidYaml e => "Invalid YAML in frontmatter: " ++ e
  | .notAMapping => "Frontmatter must be a YAML mapping"
  | .invalidConfig e => "Invalid frontmatter configuration: " ++ e

/-- Model of `parse_frontmatter_file` over the file's text content.  The
YAML parser `yaml.safe_load` is an external collaborator, passed as the
function `yamlParse`. -/
def parseFrontmatter (yamlParse : String → Except String Yaml)
    (sourcePath content : String) : Except FmFailure ParsedDoc :=
  match matchFrontmatter content with
  | none =>
    if pyStrip content ≠ "" then
      if pyStartsWith content "---" then .error .malformedBlock
      else .error .missingFrontmatter
    else .error .emptyDocument
  | some (yamlText, body) =>
    match yamlParse yamlText with
    | .error e => .error (.invalidYaml e)
    | .ok (.map m) =>
      match FrontmatterConfig.modelValidate m with
      | .error e => .error (.invalidConfig e)
      | .ok cfg => .ok ⟨cfg, pyStrip body, sourcePath⟩
    | .ok _ => .error .notAMapping

/-- A registered processor (an object implementing `ProcessorProtocol`):
a name, an optional `priority` attribute, and the fallible transform
`process(obj, context) -> (obj, context)`.  The symbol-object type `σ` and
the context type `κ` are abstract. -/
structure Proc (σ κ : Type) where
  name : String
  priority : Option Int
  process : σ → κ → Except String (σ × κ)

/-- The sort key used by `process_griffe_object`:
`getattr(p, "priority", 100)`. -/
def effPriority {σ κ : Type} (p : Proc σ κ) : Int :=
  p.priority.getD 100

/-- Plugin errors raised by `process_griffe_object` (`PluginError`). -/
inductive PluginErr where
  | notFound (name : String) : PluginErr
  | procFailed (name : String) (cause : String) : PluginErr
deriving DecidableEq

/-- Lookup in the registry's processor dict (`self._processors[name]`). -/
def lookupProc {σ κ : Type} (reg : List (String × Proc σ κ)) (n : String) :
    Option (Proc σ κ) :=
  match reg with
  | [] => none
  | (k, p) :: rest => if k = n then some p else lookupProc rest n

/-- Resolution of an explicit processor-name list: the loop of
`process_griffe_object` that collects named processors in order and raises
`PluginError` at the first absent name. -/
def resolveNames {σ κ : Type} (reg : List (String × Proc σ κ)) :
    List String → Except PluginErr (List (Proc σ κ))
  | [] => .ok []
  | n :: ns =>
    match lookupProc reg n with
    | some p => (resolveNames reg ns).map (fun ps => p :: ps)
    | none => .error (.notFound n)

/-- Resolution of the active processor set: all registered processors when
no list is given, else exactly the named ones. -/
def resolveProcs {σ κ : Type} (reg : List (String × Proc σ κ)) :
    Option (List String) → Except PluginErr (List (Proc σ κ))
  | none => .ok (reg.map Prod.snd)
  | some names => resolveNames reg names

/-- Ordering used by `processors.sort(key=lambda p: getattr(p, "priority", 100))`. -/
def procLE {σ κ : Type} (a b : Proc σ κ) : Prop :=
  effPriority a ≤ effPriority b

instance {σ κ : Type} : DecidableRel (@procLE σ κ) :=
  fun a b => Int.decLe (effPriority a) (effPriority b)

instance {σ κ : Type} : IsTotal (Proc σ κ) (@procLE σ κ) :=
  ⟨fun a b => Int.le_total (effPriority a) (effPriority b)⟩

instance {σ κ : Type} : IsTrans (Proc σ κ) (@procLE σ κ) :=
  ⟨fun _ _ _ hab hbc => le_trans hab hbc⟩

/-- Model of the stable `list.sort` by priority key in
`process_griffe_object` (insertion sort is stable, and any two stable
sorts by the same key agree). -/
def sortProcs {σ κ : Type} (ps : List (Proc σ κ)) : List (Proc σ κ) :=
  List.insertionSort (@procLE σ κ) ps

/-- Sequential execution of the sorted processors, threading
`(obj, context)` through each; a processor failure aborts with
`PluginError` naming the offender.  The second component records the names
of the processors whose `process` was actually invoked, in order. -/
def runProcs {σ κ : Type} :
    List (Proc σ κ) → σ → κ → Except PluginErr (σ × κ) × List String
  | [], s, c => (.ok (s, c), [])
  | p :: ps, s, c =>
    match p.process s c with
    | .error e => (.error (.procFailed p.name e), [p.name])
    | .ok (s1, c1) =>
      let r := runProcs ps s1 c1
      (r.1, p.name :: r.2)

/-- Model of `PluginManager.process_griffe_object`: resolve the active
set, sort by priority, run sequentially.  Returns the result together with
the execution trace (names of processors actually invoked). -/
def processGriffeObject {σ κ : Type} (reg : List (String × Proc σ κ))
    (obj : σ) (ctx : κ) (names : Option (List String)) :
    Except PluginErr (σ × κ) × List String :=
  match resolveProcs reg names with
  | .error e => (.error e, [])
  | .ok ps => runProcs (sortProcs ps) obj ctx

/-- Registry state of `PluginManager`: three insertion-ordered maps and
the `_loaded` flag.  Processor, filter and bundle payload types are
abstract. -/
structure RegistryState (π φ β : Type) where
  processors : List (String × π)
  filters : List (String × φ)
  bundles : List (String × β)
  loaded : Bool

/-- Membership test of an insertion-ordered dict. -/
def dictContains {α : Type} (d : List (String × α)) (k : String) : Bool :=
  d.any (fun kv => kv.1 == k)

/-- Assignment `d[k] = v` on an insertion-ordered dict: replaces in place
when the key exists, else appends. -/
def dictInsert {α : Type} (d : List (String × α)) (k : String) (v : α) :
    List (String × α) :=
  if dictContains d k then
    d.map (fun kv => if kv.1 == k then (k, v) else kv)
  else d ++ [(k, v)]

/-- Model of `_load_entry_points`: each entry point either loads a value
or fails; the first failure aborts the whole load with `PluginLoadError`. -/
def loadEntryPoints {α : Type} :
    List (String × Except String α) → List (String × α) →
    Except String (List (String × α))
  | [], d => .ok d
  | (n, .error e) :: _, _ =>
    .error ("Failed to load plugin " ++ n ++ ": " ++ e)
  | (n, .ok v) :: rest, d => loadEntryPoints rest (dictInsert d n v)

/-- An explicitly configured local plugin module: the import may fail
(module skipped), each processor candidate's instantiation may fail
(candidate skipped). -/
structure LocalModule (π φ : Type) where
  name : String
  importOk : Bool
  procCandidates : List (String × Except String π)
  filterCandidates : List (String × φ)

/-- Registration of one local module's filters: bare name (first writer
wins) plus always the qualified `module.name` key. -/
def registerLocalFilters {φ : Type} (modName : String) :
    List (String × φ) → List (String × φ) → List (String × φ)
  | [], d => d
  | (n, f) :: rest, d =>
    let d1 := if dictContains d n then d else dictInsert d n f
    registerLocalFilters modName rest (dictInsert d1 (modName ++ "." ++ n) f)

/-- Registration of one local module's processors: failed instantiation is
skipped; otherwise bare name (first writer wins) plus always the qualified
`module.name` key. -/
def registerLocalProcs {π : Type} (modName : String) :
    List (String × Except String π) → List (String × π) → List (String × π)
  | [], d => d
  | (_, .error _) :: rest, d => registerLocalProcs modName rest d
  | (n, .ok p) :: rest, d =>
    let d1 := if dictContains d n then d else dictInsert d n p
    registerLocalProcs modName rest (dictInsert d1 (modName ++ "." ++ n) p)

/-- Discovery environment for `load_plugins`: entry points of the three
groups, bundle component accessors, and the configured local modules. -/
structure LoadEnv (π φ β : Type) where
  entryProcessors : List (String × Except String π)
  entryFilters : List (String × Except String φ)
  entryBundles : List (String × Except String β)
  bundleProcs : β → List (String × π)
  bundleFilters : β → List (String × φ)
  localModules : List (LocalModule π φ)

/-- Local-module pass of `load_plugins`: a failed import skips the module;
otherwise its processors and filters are registered. -/
def loadLocalModules {π φ : Type} (mods : List (LocalModule π φ))
    (procs : List (String × π)) (filts : List (String × φ)) :
    List (String × π) × List (String × φ) :=
  match mods with
  | [] => (procs, filts)
  | m :: rest =>
    if m.importOk then
      loadLocalModules rest
        (registerLocalProcs m.name m.procCandidates procs)
        (registerLocalFilters m.name m.filterCandidates filts)
    else loadLocalModules rest procs filts

/-- Bundle-expansion pass of `load_plugins`: each bundle is recorded and
its components registered under namespaced `bundle.component` keys. -/
def expandBundles {π φ β : Type} (env : LoadEnv π φ β)
    (loaded : List (String × β))
    (procs : List (String × π)) (filts : List (String × φ))
    (bundles : List (String × β)) :
    List (String × π) × List (String × φ) × List (String × β) :=
  match loaded with
  | [] => (procs, filts, bundles)
  | (bn, b) :: rest =>
    let procs1 := (env.bundleProcs b).foldl
      (fun d kv => dictInsert d (bn ++ "." ++ kv.1) kv.2) procs
    let filts1 := (env.bundleFilters b).foldl
      (fun d kv => dictInsert d (bn ++ "." ++ kv.1) kv.2) filts
    expandBundles env rest procs1 filts1 (dictInsert bundles bn b)

/-- Model of `PluginManager.load_plugins`: returns immediately when
already loaded; otherwise discovers entry points (a failure aborts the
whole load), local modules (import failures skipped) and bundles, then
marks the state loaded. -/
def loadPlugins {π φ β : Type} (env : LoadEnv π φ β)
    (s : RegistryState π φ β) : Except String (RegistryState π φ β) :=
  if s.loaded then .ok s
  else
    match loadEntryPoints env.entryProcessors s.processors with
    | .error e => .error e
    | .ok procs =>
      match loadEntryPoints env.entryFilters s.filters with
      | .error e => .error e
      | .ok filts =>
        let lp := loadLocalModules env.localModules procs filts
        match loadEntryPoints env.entryBundles [] with
        | .error e => .error e
        | .ok bs =>
          let r := expandBundles env bs lp.1 lp.2 s.bundles
          .ok ⟨r.1, r.2.1, r.2.2, true⟩

/-- Model of `PluginManager.get_processors`: triggers `load_plugins`, then
returns the (copied) processors map alongside the resulting state. -/
def getProcessors {π φ β : Type} (env : LoadEnv π φ β)
    (s : RegistryState π φ β) :
    Except String (RegistryState π φ β × List (String × π)) :=
  (loadPlugins env s).map (fun s1 => (s1, s1.processors))

/-- Model of `PluginManager.get_filters`. -/
def getFilters {π φ β : Type} (env : LoadEnv π φ β)
    (s : RegistryState π φ β) :
    Except String (RegistryState π φ β × List (String × φ)) :=
  (loadPlugins env s).map (fun s1 => (s1, s1.filters))

/-- Model of `PluginManager.get_bundles`. -/
def getBundles {π φ β : Type} (env : LoadEnv π φ β)
    (s : RegistryState π φ β) :
    Except String (RegistryState π φ β × List (String × β)) :=
  (loadPlugins env s).map (fun s1 => (s1, s1.bundles))

/-- A file of the scanned source tree: its root-relative,
separator-normalised path and its text content (`none` when reading the
file raises, i.e. the file is unreadable). -/
structure SrcFile where
  rel : String
  content : Option String
deriving DecidableEq

/-- Classification test of `categorise_files`: a readable file is a
frontmatter file exactly when its content starts with the delimiter line
`"---\n"`; an unreadable file is treated as passthrough. -/
def isAnnotated (f : SrcFile) : Bool :=
  match f.content with
  | some c => pyStartsWith c "---\n"
  | none => false

/-- Model of `categorise_files`: partitions the files, in order, into
frontmatter files and passthrough files. -/
def categoriseFiles : List SrcFile → List SrcFile × List SrcFile
  | [] => ([], [])
  | f :: fs =>
    let r := categoriseFiles fs
    if isAnnotated f then (f :: r.1, r.2) else (r.1, f :: r.2)

/-- Ignore test of `find_all_files`: the root-relative normalised path
matches some ignore glob (`fnmatch.fnmatch` is the external matcher
`matchGlob`). -/
def fileIgnored (matchGlob : String → String → Bool)
    (pats : List String) (f : SrcFile) : Bool :=
  pats.any (fun pat => matchGlob f.rel pat)

/-- Lexicographic comparison of two character lists by code point. -/
def charsLE : List Char → List Char → Bool
  | [], _ => true
  | _ :: _, [] => false
  | a :: as1, b :: bs1 =>
    if a.toNat < b.toNat then true
    else if b.toNat < a.toNat then false
    else charsLE as1 bs1

/-- Ordering of the final `sorted(all_files)`: paths compare
lexicographically. -/
def fileLE (a b : SrcFile) : Prop :=
  charsLE a.rel.data b.rel.data = true

instance : DecidableRel fileLE :=
  fun a b => inferInstanceAs (Decidable (charsLE a.rel.data b.rel.data = true))

/-- Model of `find_all_files`: drop files matching an ignore pattern, drop
unreadable files, return the rest sorted by path. -/
def findAllFiles (matchGlob : String → String → Bool)
    (dir : List SrcFile) (pats : List String) : List SrcFile :=
  List.insertionSort fileLE
    ((dir.filter (fun f => !fileIgnored matchGlob pats f)).filter
      (fun f => f.content.isSome))

/-- Environment of external collaborators used by the generation
orchestrator: the glob matcher (`fnmatch.fnmatch`), the YAML parser
(`yaml.safe_load`), the per-target pipeline body of `generate_file`
(config merge, Griffe load, context build, processor run, template render
and file write — lines 239 to 312 of `core.py`, all of whose failure modes
the `Except` captures; success returns the written path), and the
passthrough copy (`copy_file_passthrough`). -/
structure GenEnv where
  matchGlob : String → String → Bool
  yamlParse : String → Except String Yaml
  processItem : ParsedDoc → OutputItem → Except String String
  copyFile : SrcFile → Except String String

/-- The per-target loop of `generate_file`: each output item is processed
in order; the first failure aborts the loop (the Python `raise` inside the
`for`), so no later item is attempted.  Returns the paths written before
the failure and the failing item with its cause, if any. -/
def runTargets (step : OutputItem → Except String String) :
    List OutputItem → List String × Option (OutputItem × String)
  | [] => ([], none)
  | it :: rest =>
    match step it with
    | .error e => ([], some (it, e))
    | .ok p =>
      let r := runTargets step rest
      (p :: r.1, r.2)

/-- The `GenerationError` message wrapping a target failure:
`Failed to generate {filename} from {source}: {cause}`. -/
def wrapTargetFailure (doc : ParsedDoc) (it : OutputItem) (cause : String) :
    String :=
  "Failed to generate " ++ it.filename ++ " from " ++ doc.sourcePath
    ++ ": " ++ cause

/-- Model of `generate_file` on a source file's path and content: parse
the frontmatter, then run the per-target loop.  Returns the written output
paths and, when the call raises, the raised error's message. -/
def generateFile (env : GenEnv) (path content : String) :
    List String × Option String :=
  match parseFrontmatter env.yamlParse path content with
  | .error e => ([], some (fmFailureMessage e))
  | .ok doc =>
    let r := runTargets (env.processItem doc) doc.frontmatter.output
    (r.1, r.2.map (fun pr => wrapTargetFailure doc pr.1 pr.2))

/-- One recorded failure of directory processing, as accumulated in the
`errors` list of `generate_directory`. -/
inductive DirErr where
  | genFailed (path : String) (cause : String) : DirErr
  | copyFailed (path : String) (cause : String) : DirErr
deriving DecidableEq

/-- Rendering of one recorded failure inside the aggregate message. -/
def dirErrMessage : DirErr → String
  | .genFailed p c => "Failed to generate " ++ p ++ ": " ++ c
  | .copyFailed p c => "Failed to copy " ++ p ++ ": " ++ c

/-- The aggregate `GenerationError` message of `generate_directory`:
`Processing completed with {n} errors:` followed by one indented line per
recorded failure. -/
def aggregateMessage (errs : List DirErr) : String :=
  "Processing completed with " ++ toString errs.length ++ " errors:"
    ++ String.join (errs.map (fun e => "\n  - " ++ dirErrMessage e))

/-- The frontmatter pass of `generate_directory`: every frontmatter file
is attempted; a failure is recorded and does not stop the loop; a
successful file contributes its generated paths. -/
def dirProcessFm (env : GenEnv) : List SrcFile → List String × List DirErr
  | [] => ([], [])
  | f :: fs =>
    let r := generateFile env f.rel (f.content.getD "")
    let rest := dirProcessFm env fs
    match r.2 with
    | some e => (rest.1, .genFailed f.rel e :: rest.2)
    | none => (r.1 ++ rest.1, rest.2)

/-- The passthrough pass of `generate_directory`: every passthrough file
is copied; a failure is recorded and does not stop the loop. -/
def dirProcessPt (env : GenEnv) : List SrcFile → List String × List DirErr
  | [] => ([], [])
  | f :: fs =>
    let rest := dirProcessPt env fs
    match env.copyFile f with
    | .ok p => (p :: rest.1, rest.2)
    | .error e => (rest.1, .copyFailed f.rel e :: rest.2)

/-- Model of `generate_directory`: find all files (ignores and unreadable
files excluded), return `[]` when none remain, else categorise, process
frontmatter files then passthrough files, and raise one aggregate error
exactly when any failure was recorded. -/
def generateDirectory (env : GenEnv) (dir : List SrcFile)
    (pats : List String) : Except (List DirErr) (List String) :=
  let files := findAllFiles env.matchGlob dir pats
  if files = [] then .ok []
  else
    let cat := categoriseFiles files
    let fmR := dirProcessFm env cat.1
    let ptR := dirProcessPt env cat.2
    if fmR.2 ++ ptR.2 = [] then .ok (fmR.1 ++ ptR.1)
    else .error (fmR.2 ++ ptR.2)

/-- The processor-selection logic of `generate_file` (lines 270 to 289 of
`core.py`): with no processors block, all processors are used; a non-empty
`enabled` list selects exactly those; otherwise a non-empty `disabled`
list selects all registered names minus the disabled ones; with both lists
empty, all processors are used. -/
def selectProcessorNames (pc : Option ProcessorConfig)
    (allNames : List String) : Option (List String) :=
  match pc with
  | none => none
  | some cfg =>
    if cfg.enabled ≠ [] then some cfg.enabled
    else if cfg.disabled ≠ [] then
      some (allNames.filter (fun n => !cfg.disabled.contains n))
    else none

/-- A filesystem event delivered to `GriffonnerEventHandler`: the
directory flag, the event path relative to the watched source root
(`none` when the path is outside the root), and the file's content at the
time of handling (`none` when reading raises). -/
structure WatchEvent where
  isDirectory : Bool
  relPath : Option String
  content : Option String

/-- Model of `GriffonnerEventHandler._should_ignore`: with no ignore
patterns nothing is ignored; a path outside the source root is ignored;
otherwise the relative normalised path is matched against each pattern. -/
def shouldIgnore (matchGlob : String → String → Bool)
    (pats : List String) (relPath : Option String) : Bool :=
  if pats = [] then false
  else
    match relPath with
    | none => true
    | some rel => pats.any (fun pat => matchGlob rel pat)

/-- Model of `GriffonnerEventHandler._regenerate_file`: skip events
outside the root and unreadable files; generate a frontmatter file, copy a
passthrough file; any failure is caught and reported, producing no further
output.  Returns the output paths produced by handling the event. -/
def regenerateOutputs (env : GenEnv) (ev : WatchEvent) : List String :=
  match ev.relPath with
  | none => []
  | some rel =>
    match ev.content with
    | none => []
    | some c =>
      if pyStartsWith c "---\n" then (generateFile env rel c).1
      else
        match env.copyFile ⟨rel, some c⟩ with
        | .ok p => [p]
        | .error _ => []

/-- Model of `GriffonnerEventHandler.on_modified`: directory events are
ignored, ignored paths produce nothing, other events are regenerated. -/
def onModified (env : GenEnv) (pats : List String) (ev : WatchEvent) :
    List String :=
  if ev.isDirectory then []
  else if shouldIgnore env.matchGlob pats ev.relPath then []
  else regenerateOutputs env ev

/-- Model of `GriffonnerEventHandler.on_created` (same body as
`on_modified`). -/
def onCreated (env : GenEnv) (pats : List String) (ev : WatchEvent) :
    List String :=
  if ev.isDirectory then []
  else if shouldIgnore env.matchGlob pats ev.relPath then []
  else regenerateOutputs env ev

/-! ### Shared helper lemmas -/

/-- The frontmatter list built by `categorise_files` is the filter of the
annotated files, in input order. -/
theorem categoriseFiles_fst (files : List SrcFile) :
    (categoriseFiles files).1 = files.filter isAnnotated := by
  induction files with
  | nil => rfl
  | cons f fs ih =>
    by_cases h : isAnnotated f = true <;>
      simp [categoriseFiles, List.filter_cons, h, ih]

/-- The passthrough list built by `categorise_files` is the filter of the
non-annotated files, in input order. -/
theorem categoriseFiles_snd (files : List SrcFile) :
    (categoriseFiles files).2 = files.filter (fun f => !isAnnotated f) := by
  induction files with
  | nil => rfl
  | cons f fs ih =>
    by_cases h : isAnnotated f = true <;>
      simp [categoriseFiles, List.filter_cons, h, ih]

/-- Splitting a list by a boolean predicate preserves the total length. -/
theorem length_filter_add_length_filter_not {α : Type} (p : α → Bool)
    (l : List α) :
    (l.filter p).length + (l.filter (fun a => !p a)).length = l.length := by
  induction l with
  | nil => rfl
  | cons a l ih =>
    by_cases h : p a = true <;>
      simp [List.filter_cons, h, ih] <;> omega

/-! ### C5: unknown processor name -/

/-- When some requested name is absent from the registry, name resolution
fails with `PluginError` at the first absent name. -/
theorem resolveNames_missing {σ κ : Type} (reg : List (String × Proc σ κ))
    (names : List String) (h : ∃ n ∈ names, lookupProc reg n = none) :
    ∃ m ∈ names, lookupProc reg m = none ∧
      resolveNames reg names = .error (.notFound m) := by
  induction names with
  | nil => simp at h
  | cons n ns ih =>
    cases hl : lookupProc reg n with
    | none =>
      exact ⟨n, List.mem_cons_self n ns, hl, by simp [resolveNames, hl]⟩
    | some p =>
      obtain ⟨n0, hn0, hln0⟩ := h
      rcases List.mem_cons.mp hn0 with rfl | hmem
      · rw [hl] at hln0; cases hln0
      · obtain ⟨m, hm, hlm, heq⟩ := ih ⟨n0, hmem, hln0⟩
        exact ⟨m, List.mem_cons_of_mem n hm, hlm,
          by simp [resolveNames, hl, heq, Except.map]⟩

/-- C5: for every call of `process()` with an explicit selected-name list
containing at least one name absent from the registered processors, the
call fails with `PluginError` and no processor's transform is executed
(the execution trace is empty); in the purely functional embedding the
caller's context value is untouched by construction. -/
theorem unknown_name_no_execution {σ κ : Type}
    (reg : List (String × Proc σ κ)) (names : List String) (n : String)
    (obj : σ) (ctx : κ) (h1 : n ∈ names) (h2 : lookupProc reg n = none) :
    (∃ m ∈ names, lookupProc reg m = none ∧
      (processGriffeObject reg obj ctx (some names)).1 =
        .error (.notFound m)) ∧
    (processGriffeObject reg obj ctx (some names)).2 = [] := by
  obtain ⟨m, hm, hlm, heq⟩ := resolveNames_missing reg names ⟨n, h1, h2⟩
  refine ⟨⟨m, hm, hlm, ?_⟩, ?_⟩ <;>
    simp [processGriffeObject, resolveProcs, heq]

/-- A trivially succeeding processor used in concrete instances. -/
def procUnit (nm : String) (pr : Option Int) : Proc Unit Unit :=
  ⟨nm, pr, fun s c => .ok (s, c)⟩

theorem unknown_name_no_execution_witness :
    "b" ∈ ["b"] ∧
    lookupProc [("a", procUnit "a" none)] "b" = none ∧
    ((∃ m ∈ ["b"], lookupProc [("a", procUnit "a" none)] m = none ∧
      (processGriffeObject [("a", procUnit "a" none)] () () (some ["b"])).1 =
        .error (.notFound m)) ∧
    (processGriffeObject [("a", procUnit "a" none)] () ()
      (some ["b"])).2 = []) := by
  refine ⟨List.mem_singleton.mpr rfl, rfl, ?_⟩
  exact unknown_name_no_execution [("a", procUnit "a" none)] ["b"] "b" () ()
    (List.mem_singleton.mpr rfl) rfl

/-! ### C6: classification totality -/

/-- C6: every file handed to `categorise_files` lands in exactly one of
the two result lists; a readable file is annotated exactly when its
content starts with the delimiter line `"---\n"`; an unreadable file is
passthrough. -/
theorem classification_totality (files : List SrcFile) (f : SrcFile)
    (c : String) :
    (categoriseFiles files).1 = files.filter isAnnotated ∧
    (categoriseFiles files).2 = files.filter (fun g => !isAnnotated g) ∧
    (f ∈ files →
      (f ∈ (categoriseFiles files).1 ∧ f ∉ (categoriseFiles files).2) ∨
      (f ∈ (categoriseFiles files).2 ∧ f ∉ (categoriseFiles files).1)) ∧
    (f.content = some c → isAnnotated f = pyStartsWith c "---\n") ∧
    (f.content = none → isAnnotated f = false) := by
  refine ⟨categoriseFiles_fst files, categoriseFiles_snd files,
    fun hf => ?_, fun hc => ?_, fun hc => ?_⟩
  · rw [categoriseFiles_fst, categoriseFiles_snd]
    by_cases h : isAnnotated f = true
    · exact Or.inl ⟨List.mem_filter.mpr ⟨hf, h⟩,
        fun hmem => by simpa [h] using (List.mem_filter.mp hmem).2⟩
    · exact Or.inr ⟨List.mem_filter.mpr ⟨hf, by simp [h]⟩,
        fun hmem => h (List.mem_filter.mp hmem).2⟩
  · simp [isAnnotated, hc]
  · simp [isAnnotated, hc]

theorem classification_totality_witness :
    (⟨"a.md", some "---\nx"⟩ : SrcFile) ∈
      [(⟨"a.md", some "---\nx"⟩ : SrcFile), ⟨"b.md", none⟩] ∧
    (((⟨"a.md", some "---\nx"⟩ : SrcFile) ∈
        (categoriseFiles [⟨"a.md", some "---\nx"⟩, ⟨"b.md", none⟩]).1 ∧
      (⟨"a.md", some "---\nx"⟩ : SrcFile) ∉
        (categoriseFiles [⟨"a.md", some "---\nx"⟩, ⟨"b.md", none⟩]).2) ∨
     ((⟨"a.md", some "---\nx"⟩ : SrcFile) ∈
        (categoriseFiles [⟨"a.md", some "---\nx"⟩, ⟨"b.md", none⟩]).2 ∧
      (⟨"a.md", some "---\nx"⟩ : SrcFile) ∉
        (categoriseFiles [⟨"a.md", some "---\nx"⟩, ⟨"b.md", none⟩]).1)) := by
  refine ⟨by simp, ?_⟩
  exact (classification_totality [⟨"a.md", some "---\nx"⟩, ⟨"b.md", none⟩]
    ⟨"a.md", some "---\nx"⟩ "---\nx").2.2.1 (by simp)

/-! ### C7: ignore exclusion -/

/-- C7: a file whose root-relative normalised path matches a configured
ignore glob is excluded from the full directory scan, and a create or
modify event for it makes the watch handler return without producing any
output. -/
theorem ignored_file_no_output (env : GenEnv) (dir : List SrcFile)
    (pats : List String) (f : SrcFile) (ev : WatchEvent) (rel : String) :
    (f ∈ dir → fileIgnored env.matchGlob pats f = true →
      f ∉ findAllFiles env.matchGlob dir pats) ∧
    (ev.relPath = some rel →
      (∃ pat ∈ pats, env.matchGlob rel pat = true) →
      onModified env pats ev = [] ∧ onCreated env pats ev = []) := by
  constructor
  · intro _ hig hmem
    have hmem1 : f ∈ (dir.filter
        (fun g => !fileIgnored env.matchGlob pats g)).filter
        (fun g => g.content.isSome) :=
      (List.perm_insertionSort fileLE _).mem_iff.mp hmem
    have := (List.mem_filter.mp (List.mem_filter.mp hmem1).1).2
    simp [hig] at this
  · intro hrel hpat
    have hne : pats ≠ [] := by
      obtain ⟨pat, hp, _⟩ := hpat
      intro h0; rw [h0] at hp; simp at hp
    have hig : shouldIgnore env.matchGlob pats ev.relPath = true := by
      obtain ⟨pat, hp, hmatch⟩ := hpat
      simp [shouldIgnore, hne, hrel]
      exact ⟨pat, hp, hmatch⟩
    constructor <;> · simp only [onModified, onCreated, hig]; split <;> simp

theorem ignored_file_no_output_witness :
    ((⟨"build/out.html", some "x"⟩ : SrcFile) ∈
      [(⟨"build/out.html", some "x"⟩ : SrcFile)]) ∧
    fileIgnored (fun r p => pyStartsWith r (pyStrip p)) ["build/"]
      ⟨"build/out.html", some "x"⟩ = true ∧
    (⟨"build/out.html", some "x"⟩ : SrcFile) ∉
      findAllFiles (fun r p => pyStartsWith r (pyStrip p))
        [⟨"build/out.html", some "x"⟩] ["build/"] := by
  refine ⟨by simp, by decide, ?_⟩
  exact (ignored_file_no_output
    ⟨fun r p => pyStartsWith r (pyStrip p), fun _ => .error "", fun _ _ => .error "", fun _ => .error ""⟩
    [⟨"build/out.html", some "x"⟩] ["build/"] ⟨"build/out.html", some "x"⟩
    ⟨false, none, none⟩ "").1 (by simp) (by decide)

/-! ### C8: registry load idempotence -/

/-- A completed `load_plugins` leaves the loaded flag set. -/
theorem loadPlugins_loaded {π φ β : Type} (env : LoadEnv π φ β)
    (s s1 : RegistryState π φ β) (h : loadPlugins env s = .ok s1) :
    s1.loaded = true := by
  unfold loadPlugins at h
  by_cases hl : s.loaded = true
  · rw [if_pos hl] at h
    cases h
    exact hl
  · rw [if_neg hl] at h
    rcases h1 : loadEntryPoints env.entryProcessors s.processors with e | procs <;>
      rw [h1] at h
    · cases h
    rcases h2 : loadEntryPoints env.entryFilters s.filters with e | filts <;>
      rw [h2] at h
    · cases h
    rcases h3 : loadEntryPoints env.entryBundles [] with e | bs <;>
      simp only [h3] at h
    · cases h
    cases h
    rfl

/-- C8: after one completed load, every further `load_plugins` call (under
any discovery environment, hence including the implicit calls made by the
getters) returns without changing the processors, filters or bundles
maps. -/
theorem registry_load_idempotent {π φ β : Type} (env env2 : LoadEnv π φ β)
    (s s1 : RegistryState π φ β) :
    (s.loaded = true → loadPlugins env s = .ok s) ∧
    (loadPlugins env s = .ok s1 →
      loadPlugins env2 s1 = .ok s1 ∧
      getProcessors env2 s1 = .ok (s1, s1.processors) ∧
      getFilters env2 s1 = .ok (s1, s1.filters) ∧
      getBundles env2 s1 = .ok (s1, s1.bundles)) := by
  constructor
  · intro h
    unfold loadPlugins
    rw [if_pos h]
  · intro h
    have hl : s1.loaded = true := loadPlugins_loaded env s s1 h
    have hload : loadPlugins env2 s1 = .ok s1 := by
      unfold loadPlugins
      rw [if_pos hl]
    exact ⟨hload, by simp [getProcessors, hload, Except.map],
      by simp [getFilters, hload, Except.map],
      by simp [getBundles, hload, Except.map]⟩

/-- A concrete one-processor discovery environment over unit payloads. -/
def loadEnvW : LoadEnv Unit Unit Unit :=
  ⟨[("p", .ok ())], [], [], fun _ => [], fun _ => [], []⟩

/-- The registry state produced by running `loadEnvW` from scratch. -/
def loadedStateW : RegistryState Unit Unit Unit :=
  ⟨[("p", ())], [], [], true⟩

theorem registry_load_idempotent_witness :
    loadPlugins loadEnvW ⟨[], [], [], false⟩ = .ok loadedStateW ∧
    loadPlugins loadEnvW loadedStateW = .ok loadedStateW ∧
    getProcessors loadEnvW loadedStateW =
      .ok (loadedStateW, loadedStateW.processors) := by
  have h : loadPlugins loadEnvW ⟨[], [], [], false⟩ = .ok loadedStateW := rfl
  have h2 := (registry_load_idempotent loadEnvW loadEnvW
    ⟨[], [], [], false⟩ loadedStateW).2 h
  exact ⟨h, h2.1, h2.2.1⟩

/-! ### C9: enabled list takes precedence -/

/-- C9: in processor selection from the frontmatter, a non-empty enabled
list selects exactly the enabled processors and the disabled list has no
effect; the disabled list is applied (all registered names minus the
disabled ones) only when the enabled list is empty; with both lists empty
all processors are used. -/
theorem enabled_overrides_disabled (cfg : ProcessorConfig)
    (disabled2 allNames : List String) :
    (cfg.enabled ≠ [] →
      selectProcessorNames (some cfg) allNames = some cfg.enabled ∧
      selectProcessorNames (some ⟨cfg.enabled, disabled2, cfg.config⟩)
        allNames = some cfg.enabled) ∧
    (cfg.enabled = [] → cfg.disabled ≠ [] →
      selectProcessorNames (some cfg) allNames =
        some (allNames.filter (fun n => !cfg.disabled.contains n))) ∧
    (cfg.enabled = [] → cfg.disabled = [] →
      selectProcessorNames (some cfg) allNames = none) := by
  refine ⟨fun h => ?_, fun h1 h2 => ?_, fun h1 h2 => ?_⟩ <;>
    simp [selectProcessorNames, *]

theorem enabled_overrides_disabled_witness :
    (["a"] ≠ ([] : List String)) ∧
    selectProcessorNames (some ⟨["a"], ["b"], []⟩) ["a", "b"] = some ["a"] ∧
    selectProcessorNames (some ⟨["a"], ["c"], []⟩) ["a", "b"] = some ["a"] := by
  have h := (enabled_overrides_disabled ⟨["a"], ["b"], []⟩ ["c"]
    ["a", "b"]).1 (by simp)
  exact ⟨by simp, h.1, h.2⟩

/-! ### C10: empty directory -/

/-- C10: for an existing directory containing no files, or only files
that are all ignored or unreadable, `generate_directory` returns the empty
list and raises no error. -/
theorem empty_directory_ok (env : GenEnv) (dir : List SrcFile)
    (pats : List String) :
    (dir = [] → generateDirectory env dir pats = .ok []) ∧
    ((∀ f ∈ dir, fileIgnored env.matchGlob pats f = true ∨ f.content = none) →
      generateDirectory env dir pats = .ok []) := by
  constructor
  · intro h
    subst h
    rfl
  · intro h
    have hnil : findAllFiles env.matchGlob dir pats = [] := by
      unfold findAllFiles
      have : (dir.filter (fun f => !fileIgnored env.matchGlob pats f)).filter
          (fun f => f.content.isSome) = [] := by
        rw [List.filter_eq_nil_iff]
        intro f hf
        have hmem := List.mem_filter.mp hf
        rcases h f hmem.1 with hig | hur
        · simp [hig] at hmem
        · simp [hur]
      rw [this]
      rfl
    unfold generateDirectory
    rw [hnil]
    rfl

theorem empty_directory_ok_witness :
    (∀ f ∈ [(⟨"skip.md", (none : Option String)⟩ : SrcFile)],
      fileIgnored (fun _ _ => false) [] f = true ∨ f.content = none) ∧
    generateDirectory
      ⟨fun _ _ => false, fun _ => .error "", fun _ _ => .error "", fun _ => .error ""⟩
      [⟨"skip.md", none⟩] [] = .ok [] := by
  refine ⟨by simp, ?_⟩
  exact (empty_directory_ok
    ⟨fun _ _ => false, fun _ => .error "", fun _ _ => .error "", fun _ => .error ""⟩
    [⟨"skip.md", none⟩] []).2 (by simp)

/-! ### C3: processor execution order -/

/-- Inserting an element rejected by a filter leaves the filter of the
list unchanged, whatever position the ordered insertion picks. -/
theorem filter_orderedInsert_neg {σ κ : Type} (p : Proc σ κ → Bool)
    (a : Proc σ κ) (l : List (Proc σ κ)) (h : p a = false) :
    (List.orderedInsert (@procLE σ κ) a l).filter p = l.filter p := by
  induction l with
  | nil => simp [h]
  | cons b l ih =>
    by_cases hr : procLE a b
    · simp [List.orderedInsert, hr, List.filter_cons, h]
    · by_cases hb : p b = true <;>
        simp [List.orderedInsert, hr, List.filter_cons, hb, ih]

/-- Inserting an element whose priority equals the filter key puts it in
front of the other elements with that key: the elements the insertion
walks past all have strictly smaller priority, hence a different key. -/
theorem filter_orderedInsert_key {σ κ : Type} (k : Int) (a : Proc σ κ)
    (l : List (Proc σ κ)) (h : effPriority a = k) :
    (List.orderedInsert (@procLE σ κ) a l).filter
        (fun x => effPriority x == k) =
      a :: l.filter (fun x => effPriority x == k) := by
  induction l with
  | nil => simp [h]
  | cons b l ih =>
    by_cases hr : procLE a b
    · simp [List.orderedInsert, hr, List.filter_cons, h]
    · have hb : (effPriority b == k) = false := by
        have hlt : effPriority b < effPriority a := by
          simpa [procLE, not_le] using hr
        simp only [beq_eq_false_iff_ne, ne_eq]
        omega
      simp [List.orderedInsert, hr, List.filter_cons, hb, ih]

/-- Stability of the priority sort: for each priority key, the sorted
list restricted to that key is the resolution order restricted to it. -/
theorem sortProcs_filter_key {σ κ : Type} (k : Int)
    (l : List (Proc σ κ)) :
    (sortProcs l).filter (fun x => effPriority x == k) =
      l.filter (fun x => effPriority x == k) := by
  induction l with
  | nil => rfl
  | cons a l ih =>
    by_cases ha : (effPriority a == k) = true
    · have ha1 : effPriority a = k := by simpa using ha
      simp only [sortProcs, List.insertionSort] at ih ⊢
      rw [filter_orderedInsert_key k a _ ha1, ih, List.filter_cons, ha]
      simp
    · have ha0 : (effPriority a == k) = false := by simpa using ha
      simp only [sortProcs, List.insertionSort] at ih ⊢
      rw [filter_orderedInsert_neg _ a _ ha0, ih, List.filter_cons]
      simp [ha0]

/-- The sort used by `process_griffe_object` is a permutation of the
resolved processors. -/
theorem sortProcs_perm {σ κ : Type} (l : List (Proc σ κ)) :
    (sortProcs l).Perm l :=
  List.perm_insertionSort _ l

/-- The sort used by `process_griffe_object` orders processors by
non-decreasing effective priority. -/
theorem sortProcs_sorted {σ κ : Type} (l : List (Proc σ κ)) :
    (sortProcs l).Sorted (@procLE σ κ) :=
  List.sorted_insertionSort _ l

/-- Pairwise non-strict order plus pairwise-distinct keys gives pairwise
strict order. -/
theorem pairwise_lt_of_sorted_of_ne {σ κ : Type} {l : List (Proc σ κ)}
    (hs : l.Pairwise (@procLE σ κ))
    (hd : l.Pairwise (fun a b => effPriority a ≠ effPriority b)) :
    l.Pairwise (fun a b => effPriority a < effPriority b) := by
  induction l with
  | nil => exact List.Pairwise.nil
  | cons a t ih =>
    rw [List.pairwise_cons] at hs hd ⊢
    exact ⟨fun b hb => lt_of_le_of_ne (hs.1 b hb) (hd.1 b hb),
      ih hs.2 hd.2⟩

/-- Two strictly-ascending permutations of each other are equal: with
pairwise-distinct priorities the sorted order is unique. -/
theorem eq_of_perm_of_pairwise_lt {σ κ : Type} :
    ∀ (l1 l2 : List (Proc σ κ)), l1.Perm l2 →
    l1.Pairwise (fun a b => effPriority a < effPriority b) →
    l2.Pairwise (fun a b => effPriority a < effPriority b) →
    l1 = l2 := by
  intro l1
  induction l1 with
  | nil => intro l2 hp _ _; exact (hp.nil_eq).symm ▸ rfl
  | cons a t1 ih =>
    intro l2 hp h1 h2
    cases l2 with
    | nil => exact absurd hp.symm.nil_eq (by simp)
    | cons b t2 =>
      have hab : a = b := by
        have ha2 : a ∈ b :: t2 := hp.mem_iff.mp (List.mem_cons_self a t1)
        have hb1 : b ∈ a :: t1 := hp.symm.mem_iff.mp (List.mem_cons_self b t2)
        rcases List.mem_cons.mp ha2 with h | hat2
        · exact h
        rcases List.mem_cons.mp hb1 with h | hbt1
        · exact h.symm
        have hba : effPriority b < effPriority a :=
          (List.pairwise_cons.mp h2).1 a hat2
        have hab2 : effPriority a < effPriority b :=
          (List.pairwise_cons.mp h1).1 b hbt1
        omega
      subst hab
      have htail : t1.Perm t2 := hp.cons_inv
      rw [ih t2 htail (List.pairwise_cons.mp h1).2
        (List.pairwise_cons.mp h2).2]

/-- Distinct priorities transported along a permutation. -/
theorem pairwise_ne_of_perm {σ κ : Type} {l1 l2 : List (Proc σ κ)}
    (hp : l1.Perm l2)
    (hd : l1.Pairwise (fun a b => effPriority a ≠ effPriority b)) :
    l2.Pairwise (fun a b => effPriority a ≠ effPriority b) :=
  (hp.pairwise_iff fun h => Ne.symm h).mp hd

/-- The execution trace of a processor run is an order-preserving initial
segment of the executed list's names (all of them when no processor
fails). -/
theorem runProcs_trace {σ κ : Type} :
    ∀ (ps : List (Proc σ κ)) (s : σ) (c : κ),
    ∃ j, (runProcs ps s c).2 = (ps.map (fun p => p.name)).take j := by
  intro ps
  induction ps with
  | nil => exact fun s c => ⟨0, rfl⟩
  | cons p ps ih =>
    intro s c
    cases hp : p.process s c with
    | error e => exact ⟨1, by simp [runProcs, hp]⟩
    | ok sc =>
      obtain ⟨j, hj⟩ := ih sc.1 sc.2
      exact ⟨j + 1, by simp [runProcs, hp, hj]⟩

/-- C3: `process()` sorts the resolved processors by effective priority
before invoking them: the execution trace follows the sorted order; with
pairwise-distinct priorities the order is strictly ascending and is
independent of the registration (resolution) order; processors of equal
priority keep their resolution order (stable tie-break); and a processor
without a `priority` attribute is treated as priority `100`. -/
theorem processor_execution_order {σ κ : Type}
    (reg : List (String × Proc σ κ)) (names : Option (List String))
    (procs procs2 : List (Proc σ κ)) (obj : σ) (ctx : κ) (k : Int)
    (q : Proc σ κ) :
    (resolveProcs reg names = .ok procs →
      ∃ j, (processGriffeObject reg obj ctx names).2 =
        ((sortProcs procs).map (fun p => p.name)).take j) ∧
    (procs.Pairwise (fun a b => effPriority a ≠ effPriority b) →
      (sortProcs procs).Pairwise
        (fun a b => effPriority a < effPriority b) ∧
      (procs.Perm procs2 → sortProcs procs2 = sortProcs procs)) ∧
    ((sortProcs procs).filter (fun p => effPriority p == k) =
      procs.filter (fun p => effPriority p == k)) ∧
    (q.priority = none → effPriority q = 100) := by
  refine ⟨fun hres => ?_, fun hd => ⟨?_, fun hperm => ?_⟩,
    sortProcs_filter_key k procs, fun hq => by simp [effPriority, hq]⟩
  · obtain ⟨j, hj⟩ := runProcs_trace (sortProcs procs) obj ctx
    exact ⟨j, by simp [processGriffeObject, hres, hj]⟩
  · exact pairwise_lt_of_sorted_of_ne (sortProcs_sorted procs)
      (pairwise_ne_of_perm (sortProcs_perm procs).symm hd)
  · have hd2 := pairwise_ne_of_perm hperm hd
    refine eq_of_perm_of_pairwise_lt _ _
      (((sortProcs_perm procs2).trans hperm.symm).trans
        (sortProcs_perm procs).symm)
      (pairwise_lt_of_sorted_of_ne (sortProcs_sorted procs2)
        (pairwise_ne_of_perm (sortProcs_perm procs2).symm hd2))
      (pairwise_lt_of_sorted_of_ne (sortProcs_sorted procs)
        (pairwise_ne_of_perm (sortProcs_perm procs).symm hd))

/-- Processor at priority 150, registered first in the witness. -/
def procHi : Proc Unit Unit := procUnit "hi" (some 150)

/-- Processor at priority 50, registered second in the witness. -/
def procLo : Proc Unit Unit := procUnit "lo" (some 50)

theorem processor_execution_order_witness :
    resolveProcs [("hi", procHi), ("lo", procLo)] none = .ok [procHi, procLo] ∧
    [procHi, procLo].Pairwise
      (fun a b => effPriority a ≠ effPriority b) ∧
    (∃ j, (processGriffeObject [("hi", procHi), ("lo", procLo)] () ()
        none).2 =
      ((sortProcs [procHi, procLo]).map (fun p => p.name)).take j) ∧
    (sortProcs [procHi, procLo]).Pairwise
      (fun a b => effPriority a < effPriority b) ∧
    sortProcs [procLo, procHi] = sortProcs [procHi, procLo] := by
  have h := processor_execution_order [("hi", procHi), ("lo", procLo)]
    none [procHi, procLo] [procLo, procHi] () () 100 procHi
  have hd : ([procHi, procLo]).Pairwise
      (fun a b => effPriority a ≠ effPriority b) := by
    simp [procHi, procLo, procUnit, effPriority]
  exact ⟨rfl, hd, h.1 rfl, (h.2.1 hd).1,
    (h.2.1 hd).2 (List.Perm.swap _ _ _)⟩

/-! ### C1: target failure within a document -/

/-- First output target of the two-target counterexample document. -/
def itemA : OutputItem := ⟨"a.md", "pkg.a"⟩

/-- Second output target of the two-target counterexample document. -/
def itemB : OutputItem := ⟨"b.md", "pkg.b"⟩

/-- The YAML block of the counterexample document. -/
def yamlC1 : String :=
  "template: t.j2\noutput:\n- filename: a.md\n  griffe_target: pkg.a\n- filename: b.md\n  griffe_target: pkg.b"

/-- The counterexample document: two output targets. -/
def contentC1 : String := "---\n" ++ yamlC1 ++ "\n---\n"

/-- Concrete environment for the counterexample: the YAML oracle parses
exactly the counterexample block to its mapping, the per-target pipeline
fails on target `a.md` and succeeds on target `b.md`. -/
def envC1 : GenEnv :=
  ⟨fun _ _ => false,
   fun s =>
     if s = yamlC1 then
       .ok (.map [("template", .str "t.j2"),
         ("output", .list
           [.map [("filename", .str "a.md"), ("griffe_target", .str "pkg.a")],
            .map [("filename", .str "b.md"),
              ("griffe_target", .str "pkg.b")]])])
     else .error "unexpected yaml",
   fun _ it =>
     if it.filename = "a.md" then .error "boom"
     else .ok ("out/" ++ it.filename),
   fun f => .ok ("out/" ++ f.rel)⟩

/-- The parse result of the counterexample document. -/
def docC1 : ParsedDoc :=
  ⟨⟨"t.j2", [itemA, itemB], [], [], none⟩, "", "pages/doc.md"⟩

/-- The counterexample source file as seen by the directory scan. -/
def fileC1 : SrcFile := ⟨"pages/doc.md", some contentC1⟩

/-- C1 counterexample: in directory-mode generation of a document with two
output targets whose first target fails, the second target is NOT
generated even though its pipeline step would succeed — `generate_file`
raises at the first failing target, so the written-output list is empty
and the directory run records one failure for the whole document. -/
theorem first_target_failure_skips_siblings :
    parseFrontmatter envC1.yamlParse "pages/doc.md" contentC1 = .ok docC1 ∧
    envC1.processItem docC1 itemB = .ok "out/b.md" ∧
    (generateFile envC1 "pages/doc.md" contentC1).1 = [] ∧
    generateDirectory envC1 [fileC1] [] =
      .error [.genFailed "pages/doc.md"
        "Failed to generate a.md from pages/doc.md: boom"] := by
  exact ⟨rfl, rfl, rfl, rfl⟩

/-- C1 (amended): when one OutputTarget of a document fails, the
document's remaining targets are NOT processed — the per-target loop
aborts at the first failing target, keeping only the outputs written
before it — while in directory mode the failure is recorded for that
document and the remaining sibling documents are still processed. -/
theorem target_failure_aborts_document (env : GenEnv)
    (step : OutputItem → Except String String) (pre post : List OutputItem)
    (it : OutputItem) (e msg : String) (f : SrcFile) (fs : List SrcFile) :
    ((runTargets step pre).2 = none → step it = .error e →
      runTargets step (pre ++ it :: post) =
        ((runTargets step pre).1, some (it, e))) ∧
    ((generateFile env f.rel (f.content.getD "")).2 = some msg →
      dirProcessFm env (f :: fs) =
        ((dirProcessFm env fs).1,
          .genFailed f.rel msg :: (dirProcessFm env fs).2)) := by
  constructor
  · intro hpre hit
    induction pre with
    | nil => simp [runTargets, hit]
    | cons a pre ih =>
      cases ha : step a with
      | error e2 => simp [runTargets, ha] at hpre
      | ok p =>
        have hpre2 : (runTargets step pre).2 = none := by
          simpa [runTargets, ha] using hpre
        simp [runTargets, ha, ih hpre2]
  · intro h
    simp [dirProcessFm, h]

theorem target_failure_aborts_document_witness :
    (runTargets (envC1.processItem docC1) [itemB]).2 = none ∧
    envC1.processItem docC1 itemA = .error "boom" ∧
    runTargets (envC1.processItem docC1) ([itemB] ++ itemA :: [itemB]) =
      ((runTargets (envC1.processItem docC1) [itemB]).1,
        some (itemA, "boom")) ∧
    (generateFile envC1 fileC1.rel (fileC1.content.getD "")).2 =
      some "Failed to generate a.md from pages/doc.md: boom" ∧
    dirProcessFm envC1 [fileC1] =
      ((dirProcessFm envC1 []).1,
        .genFailed fileC1.rel
          "Failed to generate a.md from pages/doc.md: boom"
          :: (dirProcessFm envC1 []).2) := by
  have h := target_failure_aborts_document envC1 (envC1.processItem docC1)
    [itemB] [itemB] itemA "boom"
    "Failed to generate a.md from pages/doc.md: boom" fileC1 []
  exact ⟨rfl, rfl, h.1 rfl rfl, rfl, h.2 rfl⟩

/-! ### C2: directory aggregate failure -/

/-- The error raised (if any) by processing one frontmatter file, as
`generate_directory` observes it. -/
def fmFileError (env : GenEnv) (f : SrcFile) : Option String :=
  (generateFile env f.rel (f.content.getD "")).2

/-- The error raised (if any) by copying one passthrough file. -/
def ptFileError (env : GenEnv) (f : SrcFile) : Option String :=
  match env.copyFile f with
  | .ok _ => none
  | .error e => some e

/-- The copied path of one passthrough file (meaningful when the copy
succeeds). -/
def ptCopyResult (env : GenEnv) (f : SrcFile) : String :=
  match env.copyFile f with
  | .ok p => p
  | .error _ => ""

/-- The frontmatter pass records exactly the failing files (with their
causes, in order) and produces the outputs of exactly the non-failing
files. -/
theorem dirProcessFm_spec (env : GenEnv) (fs : List SrcFile) :
    (dirProcessFm env fs).2 =
      (fs.filter (fun f => (fmFileError env f).isSome)).map
        (fun f => DirErr.genFailed f.rel ((fmFileError env f).getD "")) ∧
    (dirProcessFm env fs).1 =
      ((fs.filter (fun f => (fmFileError env f).isNone)).map
        (fun f => (generateFile env f.rel (f.content.getD "")).1)).flatten := by
  induction fs with
  | nil => exact ⟨rfl, rfl⟩
  | cons f fs ih =>
    cases h : (generateFile env f.rel (f.content.getD "")).2 with
    | none =>
      constructor <;>
        simp [dirProcessFm, h, fmFileError, List.filter_cons, ih.1, ih.2]
    | some e =>
      constructor <;>
        simp [dirProcessFm, h, fmFileError, List.filter_cons, ih.1, ih.2]

/-- The passthrough pass records exactly the failing copies (with their
causes, in order) and produces the copies of exactly the non-failing
files. -/
theorem dirProcessPt_spec (env : GenEnv) (fs : List SrcFile) :
    (dirProcessPt env fs).2 =
      (fs.filter (fun f => (ptFileError env f).isSome)).map
        (fun f => DirErr.copyFailed f.rel ((ptFileError env f).getD "")) ∧
    (dirProcessPt env fs).1 =
      (fs.filter (fun f => (ptFileError env f).isNone)).map
        (fun f => ptCopyResult env f) := by
  induction fs with
  | nil => exact ⟨rfl, rfl⟩
  | cons f fs ih =>
    cases h : env.copyFile f with
    | ok p =>
      constructor <;>
        simp [dirProcessPt, h, ptFileError, ptCopyResult,
          List.filter_cons, ih.1, ih.2]
    | error e =>
      constructor <;>
        simp [dirProcessPt, h, ptFileError, ptCopyResult,
          List.filter_cons, ih.1, ih.2]

/-- C2: when some files of a directory fail and some succeed, every
non-failing file is still processed (frontmatter files contribute their
generated outputs, passthrough files their copies), and the run raises a
single aggregate error enumerating exactly the failed paths with their
causes; the number of successfully processed files plus the number of
enumerated failures accounts for every scanned file. -/
theorem directory_aggregate_failure (env : GenEnv) (dir : List SrcFile)
    (pats : List String) (files fm pt : List SrcFile)
    (hfiles : findAllFiles env.matchGlob dir pats = files)
    (hcat : categoriseFiles files = (fm, pt))
    (hfail : fm.filter (fun f => (fmFileError env f).isSome) ≠ [] ∨
      pt.filter (fun f => (ptFileError env f).isSome) ≠ [])
    (hsucc : fm.filter (fun f => (fmFileError env f).isNone) ≠ [] ∨
      pt.filter (fun f => (ptFileError env f).isNone) ≠ []) :
    generateDirectory env dir pats = .error
      ((fm.filter (fun f => (fmFileError env f).isSome)).map
          (fun f => DirErr.genFailed f.rel ((fmFileError env f).getD ""))
        ++ (pt.filter (fun f => (ptFileError env f).isSome)).map
          (fun f => DirErr.copyFailed f.rel ((ptFileError env f).getD ""))) ∧
    (dirProcessFm env fm).1 =
      ((fm.filter (fun f => (fmFileError env f).isNone)).map
        (fun f => (generateFile env f.rel (f.content.getD "")).1)).flatten ∧
    (dirProcessPt env pt).1 =
      (pt.filter (fun f => (ptFileError env f).isNone)).map
        (fun f => ptCopyResult env f) ∧
    (fm.filter (fun f => (fmFileError env f).isNone)).length
      + (pt.filter (fun f => (ptFileError env f).isNone)).length
      + ((fm.filter (fun f => (fmFileError env f).isSome)).length
        + (pt.filter (fun f => (ptFileError env f).isSome)).length)
      = files.length := by
  have hfm := dirProcessFm_spec env fm
  have hpt := dirProcessPt_spec env pt
  have hne : files ≠ [] := by
    intro h0
    subst h0
    have h1 : fm = [] := by
      have := congrArg Prod.fst hcat
      simpa [categoriseFiles] using this.symm
    have h2 : pt = [] := by
      have := congrArg Prod.snd hcat
      simpa [categoriseFiles] using this.symm
    subst h1; subst h2
    rcases hfail with h | h <;> simp at h
  have herrne :
      (dirProcessFm env fm).2 ++ (dirProcessPt env pt).2 ≠ [] := by
    rw [hfm.1, hpt.1]
    rcases hfail with h | h <;> simp [h]
  have hmain : generateDirectory env dir pats =
      .error ((dirProcessFm env fm).2 ++ (dirProcessPt env pt).2) := by
    unfold generateDirectory
    rw [hfiles, if_neg hne, hcat]
    simp only [if_neg herrne]
  refine ⟨?_, hfm.2, hpt.2, ?_⟩
  · rw [hmain, hfm.1, hpt.1]
  · have hnone : ∀ o : Option String, (!o.isSome) = o.isNone := by
      intro o; cases o <;> rfl
    have hfm2 :
        (fm.filter (fun f => (fmFileError env f).isNone)) =
          fm.filter (fun f => !(fmFileError env f).isSome) := by
      apply List.filter_congr
      intro f _
      rw [hnone]
    have hpt2 :
        (pt.filter (fun f => (ptFileError env f).isNone)) =
          pt.filter (fun f => !(ptFileError env f).isSome) := by
      apply List.filter_congr
      intro f _
      rw [hnone]
    have hlen1 := length_filter_add_length_filter_not
      (fun f => (fmFileError env f).isSome) fm
    have hlen2 := length_filter_add_length_filter_not
      (fun f => (ptFileError env f).isSome) pt
    have hfmpt : fm.length + pt.length = files.length := by
      have h1 : fm = files.filter isAnnotated := by
        have := congrArg Prod.fst hcat
        rw [categoriseFiles_fst] at this
        exact this.symm
      have h2 : pt = files.filter (fun f => !isAnnotated f) := by
        have := congrArg Prod.snd hcat
        rw [categoriseFiles_snd] at this
        exact this.symm
      rw [h1, h2]
      exact length_filter_add_length_filter_not isAnnotated files
    rw [hfm2, hpt2]
    omega

/-- Second source file of the C2 witness: a passthrough file that copies
successfully while its sibling frontmatter file fails to parse. -/
def fileC2 : SrcFile := ⟨"readme.md", some "plain text"⟩

/-- A frontmatter-looking file whose block is malformed, so that its
generation fails. -/
def fileC2bad : SrcFile := ⟨"bad.md", some "---\nbroken"⟩

/-- Environment of the C2 witness: copies succeed, YAML never parses. -/
def envC2 : GenEnv :=
  ⟨fun _ _ => false, fun _ => .error "unexpected yaml",
   fun _ _ => .error "unused", fun f => .ok ("out/" ++ f.rel)⟩

theorem directory_aggregate_failure_witness :
    findAllFiles envC2.matchGlob [fileC2bad, fileC2] [] =
      [fileC2bad, fileC2] ∧
    categoriseFiles [fileC2bad, fileC2] = ([fileC2bad], [fileC2]) ∧
    ([fileC2bad].filter
      (fun f => (fmFileError envC2 f).isSome) ≠ []) ∧
    ([fileC2].filter
      (fun f => (ptFileError envC2 f).isNone) ≠ []) ∧
    generateDirectory envC2 [fileC2bad, fileC2] [] = .error
      (([fileC2bad].filter (fun f => (fmFileError envC2 f).isSome)).map
          (fun f => DirErr.genFailed f.rel ((fmFileError envC2 f).getD ""))
        ++ ([fileC2].filter (fun f => (ptFileError envC2 f).isSome)).map
          (fun f => DirErr.copyFailed f.rel
            ((ptFileError envC2 f).getD ""))) := by
  have h := directory_aggregate_failure envC2 [fileC2bad, fileC2] []
    [fileC2bad, fileC2] [fileC2bad] [fileC2] rfl rfl
    (Or.inl (by decide)) (Or.inr (by decide))
  exact ⟨rfl, rfl, by decide, by decide, h.1⟩

/-! ### C4: frontmatter failure categories -/

/-- A document that is all whitespace cannot match the frontmatter
pattern (it cannot even start with a dash). -/
theorem matchFrontmatter_of_strip_empty (content : String)
    (h : pyStrip content = "") : matchFrontmatter content = none := by
  by_cases hp : ['-', '-', '-'].isPrefixOf content.data = true
  · exfalso
    have hmem : '-' ∈ content.data := by
      obtain ⟨t, ht⟩ := List.isPrefixOf_iff_prefix.mp hp
      rw [← ht]
      simp
    have hall : ∀ x ∈ content.data, pyWs x = true := by
      have hdata : ∀ l : List Char, l.asString.data = l := fun l => rfl
      have h0 : ((content.data.dropWhile pyWs).reverse.dropWhile
          pyWs).reverse = [] := by
        have h9 := congrArg String.data h
        rw [pyStrip, hdata] at h9
        exact h9
      have h1 : (content.data.dropWhile pyWs).reverse.dropWhile pyWs
          = [] := by
        rw [← List.reverse_eq_nil_iff]
        exact h0
      have h2 := List.dropWhile_eq_nil_iff.mp h1
      have hA : ∀ y ∈ content.data.dropWhile pyWs, pyWs y = true := by
        intro y hy
        exact h2 y (List.mem_reverse.mpr hy)
      intro x hx
      have hsplit : content.data.takeWhile pyWs
          ++ content.data.dropWhile pyWs = content.data :=
        List.takeWhile_append_dropWhile pyWs content.data
      rw [← hsplit] at hx
      rcases List.mem_append.mp hx with h1m | h2m
      · exact List.mem_takeWhile_imp h1m
      · exact hA x h2m
    have := hall '-' hmem
    simp [pyWs] at this
  · simp only [matchFrontmatter]
    rw [if_neg (by simpa using hp)]

/-- A mapping without a `template` key fails pydantic validation. -/
theorem modelValidate_template_missing (m : List (String × Yaml))
    (h : yamlLookup m "template" = none) :
    FrontmatterConfig.modelValidate m =
      .error "template: field required" := by
  unfold FrontmatterConfig.modelValidate
  rw [h]
  rfl

/-- A mapping whose `template` has an unrecognised extension fails
pydantic validation. -/
theorem modelValidate_template_bad (m : List (String × Yaml)) (t : String)
    (h1 : yamlLookup m "template" = some (.str t))
    (h2 : validTemplate t = false) :
    FrontmatterConfig.modelValidate m =
      .error "Template must end with .jinja2 or .j2" := by
  unfold FrontmatterConfig.modelValidate
  simp only [h1, h2]
  rfl

/-- A mapping with a valid `template` but no `output` key fails pydantic
validation. -/
theorem modelValidate_output_missing (m : List (String × Yaml)) (t : String)
    (h1 : yamlLookup m "template" = some (.str t))
    (h2 : validTemplate t = true)
    (h3 : yamlLookup m "output" = none) :
    FrontmatterConfig.modelValidate m =
      .error "output: field required" := by
  unfold FrontmatterConfig.modelValidate
  simp only [h1, h2, h3]
  rfl

/-- C4 (amended): frontmatter parsing fails in distinct categories for
each ill-formed document: an empty (all-whitespace) document; a document
starting with the delimiter but whose block does not match the pattern;
valid structured data that is not a mapping; a mapping with `template`
absent; a mapping whose `template` does not end in `.jinja2` or `.j2`;
and a mapping with `output` absent.  (An empty `output` list, however, is
accepted — the validation imposes no minimum length; see the
counterexample.) -/
theorem frontmatter_failure_categories
    (yp : String → Except String Yaml) (path content yamlText body t : String)
    (m : List (String × Yaml)) (v : Yaml) :
    (pyStrip content = "" →
      parseFrontmatter yp path content = .error .emptyDocument) ∧
    (pyStrip content ≠ "" → pyStartsWith content "---" = true →
      matchFrontmatter content = none →
      parseFrontmatter yp path content = .error .malformedBlock) ∧
    (matchFrontmatter content = some (yamlText, body) →
      yp yamlText = .ok v → (∀ mm, v ≠ .map mm) →
      parseFrontmatter yp path content = .error .notAMapping) ∧
    (matchFrontmatter content = some (yamlText, body) →
      yp yamlText = .ok (.map m) → yamlLookup m "template" = none →
      parseFrontmatter yp path content =
        .error (.invalidConfig "template: field required")) ∧
    (matchFrontmatter content = some (yamlText, body) →
      yp yamlText = .ok (.map m) →
      yamlLookup m "template" = some (.str t) → validTemplate t = false →
      parseFrontmatter yp path content =
        .error (.invalidConfig "Template must end with .jinja2 or .j2")) ∧
    (matchFrontmatter content = some (yamlText, body) →
      yp yamlText = .ok (.map m) →
      yamlLookup m "template" = some (.str t) → validTemplate t = true →
      yamlLookup m "output" = none →
      parseFrontmatter yp path content =
        .error (.invalidConfig "output: field required")) := by
  refine ⟨fun h => ?_, fun h1 h2 h3 => ?_, fun h1 h2 h3 => ?_,
    fun h1 h2 h3 => ?_, fun h1 h2 h3 h4 => ?_, fun h1 h2 h3 h4 h5 => ?_⟩
  · simp only [parseFrontmatter, matchFrontmatter_of_strip_empty content h]
    simp [h]
  · simp only [parseFrontmatter, h3]
    simp [h1, h2]
  · cases v with
    | map mm => exact absurd rfl (h3 mm)
    | null => simp only [parseFrontmatter, h1, h2]
    | bool b => simp only [parseFrontmatter, h1, h2]
    | str s => simp only [parseFrontmatter, h1, h2]
    | int n => simp only [parseFrontmatter, h1, h2]
    | list xs => simp only [parseFrontmatter, h1, h2]
  · simp only [parseFrontmatter, h1, h2,
      modelValidate_template_missing m h3]
  · simp only [parseFrontmatter, h1, h2,
      modelValidate_template_bad m t h3 h4]
  · simp only [parseFrontmatter, h1, h2,
      modelValidate_output_missing m t h3 h4 h5]

/-- YAML oracle of the C4 witness: parses the single block of the witness
document to a mapping without a `template` key. -/
def ypC4w : String → Except String Yaml := fun s =>
  if s = "a: 1" then .ok (.map [("a", .int 1)]) else .error "unexpected yaml"

theorem frontmatter_failure_categories_witness :
    pyStrip "  " = "" ∧
    parseFrontmatter ypC4w "p.md" "  " = .error .emptyDocument ∧
    matchFrontmatter "---\na: 1\n---\nx" = some ("a: 1", "x") ∧
    ypC4w "a: 1" = .ok (.map [("a", .int 1)]) ∧
    yamlLookup [("a", .int 1)] "template" = none ∧
    parseFrontmatter ypC4w "p.md" "---\na: 1\n---\nx" =
      .error (.invalidConfig "template: field required") := by
  refine ⟨rfl, ?_, rfl, rfl, rfl, ?_⟩
  · exact (frontmatter_failure_categories ypC4w "p.md" "  " "" "" ""
      [] .null).1 rfl
  · exact (frontmatter_failure_categories ypC4w "p.md" "---\na: 1\n---\nx"
      "a: 1" "x" "" [("a", .int 1)] .null).2.2.2.1 rfl rfl rfl

/-- The YAML block of the empty-output counterexample. -/
def yamlC4 : String := "template: doc.j2\noutput: []"

/-- YAML oracle of the empty-output counterexample: parses exactly the
counterexample block to a mapping whose `output` is the empty list. -/
def ypC4 : String → Except String Yaml := fun s =>
  if s = yamlC4 then
    .ok (.map [("template", .str "doc.j2"), ("output", .list [])])
  else .error "unexpected yaml"

/-- C4 counterexample: a document whose mapping carries a valid template
and an EMPTY `output` list parses successfully — `output: []` is a valid
`List[OutputItem]` for the pydantic model, so parsing does not fail on an
empty output list. -/
theorem empty_output_list_accepted :
    parseFrontmatter ypC4 "pages/a.md" ("---\n" ++ yamlC4 ++ "\n---\nbody")
      = .ok ⟨⟨"doc.j2", [], [], [], none⟩, "body", "pages/a.md"⟩ := by
  rfl

end Griffonner
